import Mathlib

/-!
# Explainify — structured-output pipeline, shallow embedding

Shallow embedding of the extraction / validation / repair pipeline of
`src/server.py` (functions `validate_quiz_answers`, `call_deepseek`,
`generate_study_suggestions`, `api_generate`).  Python strings are Lean
`String`s, Python exceptions are `Except String`, and the JSON values
produced by `json.loads` are the inductive `JValue`.  The two network
backends (DeepSeek and Gemini) and `json.loads` itself are external
collaborators and enter as parameters.
-/

namespace Explainify

/-! ### Python string primitives -/

/-- Whitespace characters removed by Python `str.strip()`. -/
def isPyWs (c : Char) : Bool :=
  c = ' ' || c = '\t' || c = '\n' || c = '\r' || c = '\x0b' || c = '\x0c'

/-- Python `str.strip()` on a character list: drop whitespace from both ends. -/
def pyStripList (l : List Char) : List Char :=
  ((l.dropWhile isPyWs).reverse.dropWhile isPyWs).reverse

/-- Python `str.strip()`. -/
def pyStrip (s : String) : String := String.mk (pyStripList s.toList)

/-- Python `str.lower()` on one character (ASCII range; the repository only
compares ASCII option texts). -/
def pyLowerChar (c : Char) : Char :=
  if 'A' ≤ c && c ≤ 'Z' then Char.ofNat (c.toNat + 32) else c

/-- Python `str.lower()`. -/
def pyLower (s : String) : String := String.mk (s.toList.map pyLowerChar)

/-- Python `needle in hay` for strings: contiguous substring test
(true for the empty needle, as in Python). -/
def pySubstr (needle hay : String) : Bool := decide (needle.toList <:+: hay.toList)

/-! ### JSON-like values -/

/-- Generic JSON value as produced by Python `json.loads`.  Numbers are
modelled as integers: the pipeline never computes with numeric fields. -/
inductive JValue where
  | obj  : List (String × JValue) → JValue
  | arr  : List JValue → JValue
  | str  : String → JValue
  | num  : Int → JValue
  | bool : Bool → JValue
  | null : JValue

mutual

/-- Python `==` between JSON values.  `True == 1` holds, as in Python.
Dict equality is modelled field-order-sensitively (the pipeline never
compares dicts, so the difference is unobservable here). -/
def pyEq : JValue → JValue → Bool
  | .str a, .str b => a = b
  | .num a, .num b => a = b
  | .bool a, .bool b => a = b
  | .bool a, .num b => (if a then (1 : Int) else 0) = b
  | .num a, .bool b => a = (if b then (1 : Int) else 0)
  | .null, .null => true
  | .arr a, .arr b => pyEqList a b
  | .obj a, .obj b => pyEqObj a b
  | _, _ => false

/-- Python `==` between lists, elementwise and ordered. -/
def pyEqList : List JValue → List JValue → Bool
  | [], [] => true
  | x :: xs, y :: ys => pyEq x y && pyEqList xs ys
  | _, _ => false

/-- Ordered comparison of dict fields. -/
def pyEqObj : List (String × JValue) → List (String × JValue) → Bool
  | [], [] => true
  | (k, v) :: xs, (l, w) :: ys => k = l && pyEq v w && pyEqObj xs ys
  | _, _ => false

end

mutual

/-- Python `str()` of a value, as interpolated into the f-string error
messages (escaping inside `repr` of strings is not modelled; the
repository only reports plain texts). -/
def pyStrOf : JValue → String
  | .str s => s
  | .num n => toString n
  | .bool b => if b then "True" else "False"
  | .null => "None"
  | .arr l => "[" ++ reprItems l ++ "]"
  | .obj l => "\x7b" ++ reprFields l ++ "\x7d"

/-- Python `repr()` of a value (strings get quoted). -/
def pyReprOf : JValue → String
  | .str s => "'" ++ s ++ "'"
  | .num n => toString n
  | .bool b => if b then "True" else "False"
  | .null => "None"
  | .arr l => "[" ++ reprItems l ++ "]"
  | .obj l => "\x7b" ++ reprFields l ++ "\x7d"

/-- Comma-separated reprs of list elements. -/
def reprItems : List JValue → String
  | [] => ""
  | [x] => pyReprOf x
  | x :: y :: xs => pyReprOf x ++ ", " ++ reprItems (y :: xs)

/-- Comma-separated reprs of dict fields. -/
def reprFields : List (String × JValue) → String
  | [] => ""
  | [(k, v)] => "'" ++ k ++ "': " ++ pyReprOf v
  | (k, v) :: x :: xs => "'" ++ k ++ "': " ++ pyReprOf v ++ ", " ++ reprFields (x :: xs)

end

/-- Python truthiness. -/
def pyFalsy : JValue → Bool
  | .obj f => f.isEmpty
  | .arr l => l.isEmpty
  | .str s => s.isEmpty
  | .num n => n = 0
  | .bool b => !b
  | .null => true

/-- Python `len()`; raises `TypeError` on unsized values. -/
def pyLen : JValue → Except String Nat
  | .obj f => .ok f.length
  | .arr l => .ok l.length
  | .str s => .ok s.toList.length
  | _ => .error "TypeError: object has no len()"

/-- Python iteration `for x in v`: dicts iterate over their keys, strings
over their characters; other scalars raise `TypeError`. -/
def toIterable : JValue → Except String (List JValue)
  | .obj f => .ok (f.map fun kv => .str kv.1)
  | .arr l => .ok l
  | .str s => .ok (s.toList.map fun c => .str (String.mk [c]))
  | _ => .error "TypeError: object is not iterable"

/-- First binding of a key in a dict. -/
def lookupField : List (String × JValue) → String → Option JValue
  | [], _ => none
  | (k, v) :: rest, key => if k = key then some v else lookupField rest key

/-- Python `d.get(key, default)`; raises on receivers without `.get`. -/
def pyGet (v : JValue) (key : String) (dflt : JValue) : Except String JValue :=
  match v with
  | .obj f => .ok ((lookupField f key).getD dflt)
  | _ => .error "AttributeError: object has no attribute get"

/-- Python `v[key]` with a string key. -/
def pySubscript (v : JValue) (key : String) : Except String JValue :=
  match v with
  | .obj f =>
      match lookupField f key with
      | some w => .ok w
      | none => .error ("KeyError: " ++ key)
  | _ => .error "TypeError: value is not subscriptable by a string"

/-- Replace the value bound to `key`, or append a new binding, preserving
position — Python `d[key] = v` on a dict. -/
def setField : List (String × JValue) → String → JValue → List (String × JValue)
  | [], key, v => [(key, v)]
  | (k, w) :: rest, key, v =>
      if k = key then (k, v) :: rest else (k, w) :: setField rest key v

/-- Python `d[key] = v`; raises on non-dict receivers. -/
def pySetKey (d : JValue) (key : String) (v : JValue) : Except String JValue :=
  match d with
  | .obj f => .ok (.obj (setField f key v))
  | _ => .error "TypeError: object does not support item assignment"

/-- Python `key in v` for a string needle (used by the required-field loop):
key membership for dicts, element equality for lists, substring for strings,
`TypeError` otherwise. -/
def pyContains (v : JValue) (key : String) : Except String Bool :=
  match v with
  | .obj f => .ok (f.any fun kv => kv.1 = key)
  | .arr l => .ok (l.any fun x => pyEq x (.str key))
  | .str s => .ok (pySubstr key s)
  | _ => .error "TypeError: argument is not iterable"

/-- Python `needle in container` for an arbitrary needle (used by the
test-MCQ check). -/
def pyInValue (needle container : JValue) : Except String Bool :=
  match container with
  | .arr l => .ok (l.any fun x => pyEq needle x)
  | .str s =>
      match needle with
      | .str n => .ok (pySubstr n s)
      | _ => .error "TypeError: in string requires string as left operand"
  | .obj f =>
      match needle with
      | .str n => .ok (f.any fun kv => kv.1 = n)
      | .num _ => .ok false
      | .bool _ => .ok false
      | .null => .ok false
      | _ => .error "TypeError: unhashable type"
  | _ => .error "TypeError: argument is not iterable"

/-- Python `v[:k]`. -/
def pySliceTo (v : JValue) (k : Nat) : Except String JValue :=
  match v with
  | .arr l => .ok (.arr (l.take k))
  | .str s => .ok (.str (String.mk (s.toList.take k)))
  | _ => .error "TypeError: value is not sliceable"

/-- Python `a + b` for sequences (list+list, str+str); mixed operands raise. -/
def pyConcat (a b : JValue) : Except String JValue :=
  match a, b with
  | .arr x, .arr y => .ok (.arr (x ++ y))
  | .str x, .str y => .ok (.str (x ++ y))
  | _, _ => .error "TypeError: unsupported operand types for +"

/-! ### Text extraction -/

/-- Python `text.find(c)` for a one-character needle: first index, or
`none` standing for -1. -/
def firstIdxOf (c : Char) (l : List Char) : Option Nat := l.findIdx? (· = c)

/-- Python `text.rfind(c)`: last index, or `none` standing for -1. -/
def lastIdxOf (c : Char) (l : List Char) : Option Nat :=
  match l.reverse.findIdx? (· = c) with
  | some i => some (l.length - 1 - i)
  | none => none

/-- The opening curly brace character. -/
def lbrace : Char := '\x7b'

/-- The closing curly brace character. -/
def rbrace : Char := '\x7d'

/-- Whether `pat` is an initial segment of `l`. -/
def startsWith : List Char → List Char → Bool
  | [], _ => true
  | _ :: _, [] => false
  | p :: ps, c :: cs => p = c && startsWith ps cs

/-- Left-to-right, non-overlapping replacement of `pat` by `rep`, fuelled by
the input length (each step consumes at least one character). -/
def pyReplaceAux : Nat → List Char → List Char → List Char → List Char
  | 0, _, _, l => l
  | fuel + 1, pat, rep, l =>
      match l with
      | [] => []
      | c :: rest =>
          if pat ≠ [] && startsWith pat l then
            rep ++ pyReplaceAux fuel pat rep (l.drop pat.length)
          else
            c :: pyReplaceAux fuel pat rep rest

/-- Python `s.replace(pat, rep)` for a non-empty pattern (the repository
only replaces the fixed non-empty fence markers). -/
def pyReplace (s pat rep : String) : String :=
  String.mk (pyReplaceAux s.toList.length pat.toList rep.toList s.toList)

/-- Code-fence removal — `text.replace("```json", "").replace("```", "").strip()`
(src/server.py lines 113 and 234). -/
def cleanFences (s : String) : String :=
  pyStrip (pyReplace (pyReplace s "```json" "") "```" "")

/-- Brace extraction of src/server.py lines 237-242: slice from the first
opening to the last closing brace, then strip.  The code raises exactly when
`find` or `rfind` returned -1; it never compares the two indices, so a text
such as a closing brace before an opening one passes this stage. -/
def extractJsonBlock (text : String) : Except String String :=
  match firstIdxOf lbrace text.toList, lastIdxOf rbrace text.toList with
  | some s, some e =>
      .ok (pyStrip (String.mk ((text.toList.drop s).take (e + 1 - s))))
  | _, _ => .error "DeepSeek did not return JSON"

/-! ### Quiz answer validation and repair (src/server.py lines 267-294) -/

/-- Error message of src/server.py line 274. -/
def msgNoAnswer (n : Nat) : String :=
  "Quiz question " ++ toString n ++ " has no answer"

/-- Error message of src/server.py line 277. -/
def msgOptionCount (n : Nat) : String :=
  "Quiz question " ++ toString n ++ " must have exactly 4 options"

/-- Error message of src/server.py line 294; `options` is the original
options value, interpolated by the f-string. -/
def msgMismatch (n : Nat) (answer : String) (options : JValue) : String :=
  "Quiz question " ++ toString n ++ " answer '" ++ answer ++
    "' doesn't match any option: " ++ pyStrOf options

/-- The fuzzy-repair scan of src/server.py lines 286-291: the first option
whose lower-cased text contains the lower-cased answer or vice versa. -/
def findRepair (answerLower : String) (opts : List String) : Option String :=
  opts.find? fun opt =>
    pySubstr answerLower (pyLower opt) || pySubstr (pyLower opt) answerLower

/-- Receiver check of `.strip()`: only strings respond. -/
def asStrippable : JValue → Except String String
  | .str s => .ok s
  | _ => .error "AttributeError: object has no attribute strip"

/-- Receiver check of `.lower()`: only strings respond. -/
def asLowerable : JValue → Except String String
  | .str s => .ok s
  | _ => .error "AttributeError: object has no attribute lower"

/-- One iteration of the loop in `validate_quiz_answers`
(src/server.py lines 269-294) on question `i` (0-based; messages use `i+1`). -/
def validateOne (i : Nat) (q : JValue) : Except String JValue := do
  let answerV ← pyGet q "answer" (.str "")
  let answerRaw ← asStrippable answerV
  let answer := pyStrip answerRaw
  let optionsV ← pyGet q "options" (.arr [])
  if answer.isEmpty then
    Except.error (msgNoAnswer (i + 1))
  else if pyFalsy optionsV then
    Except.error (msgOptionCount (i + 1))
  else do
    let n ← pyLen optionsV
    if n ≠ 4 then
      Except.error (msgOptionCount (i + 1))
    else do
      let optionVs ← toIterable optionsV
      let opts ← optionVs.mapM asLowerable
      let answerLower := pyLower answer
      let optionsLower := opts.map pyLower
      if answerLower ∈ optionsLower then
        Except.ok q
      else
        match findRepair answerLower opts with
        | some opt => pySetKey q "answer" (.str opt)
        | none => Except.error (msgMismatch (i + 1) answer optionsV)

/-- The enumerate-loop over the quiz questions. -/
def validateLoop (i : Nat) : List JValue → Except String (List JValue)
  | [] => .ok []
  | q :: rest => do
      let q' ← validateOne i q
      let rest' ← validateLoop (i + 1) rest
      pure (q' :: rest')

/-- Model of `validate_quiz_answers` (src/server.py lines 267-294).  Python
mutates the question dicts in place and returns None; the model returns the
container with the repaired questions, which is the only observable effect
besides raising. -/
def validate_quiz_answers (quiz : JValue) : Except String JValue := do
  let items ← toIterable quiz
  let items' ← validateLoop 0 items
  pure (match quiz with
        | .arr _ => .arr items'
        | _ => quiz)

/-! ### The primary document pipeline (src/server.py lines 230-264) -/

/-- The four required top-level keys, in source order (src/server.py line 251). -/
def requiredFields : List String := ["teaching_content", "flashcards", "quiz", "test"]

/-- Error message of src/server.py line 254. -/
def msgMissing (f : String) : String :=
  "DeepSeek JSON missing required field: " ++ f

/-- The required-field loop of src/server.py lines 251-254. -/
def checkRequired : List String → JValue → Except String Unit
  | [], _ => .ok ()
  | f :: rest, data => do
      let present ← pyContains data f
      if present then checkRequired rest data
      else .error (msgMissing f)

/-- Error message of src/server.py line 262: only the answer is interpolated. -/
def msgTestMismatch (answer : JValue) : String :=
  "Test MCQ answer '" ++ pyStrOf answer ++ "' not found in options"

/-- The test-MCQ loop of src/server.py lines 260-262: exact membership of the
answer in the options, with no repair and no count checks. -/
def checkTestMcqs : List JValue → Except String Unit
  | [] => .ok ()
  | mcq :: rest => do
      let a ← pySubscript mcq "answer"
      let opts ← pySubscript mcq "options"
      let present ← pyInValue a opts
      if present then checkTestMcqs rest
      else .error (msgTestMismatch a)

/-- The post-parse validation of `call_deepseek` (src/server.py lines 250-264):
required fields, quiz validation/repair, test-MCQ exact check; returns the
document with the repaired quiz. -/
def validateParsed (data : JValue) : Except String JValue := do
  checkRequired requiredFields data
  let quiz ← pySubscript data "quiz"
  let quiz' ← validate_quiz_answers quiz
  let testV ← pySubscript data "test"
  let mcqs ← pySubscript testV "mcq_questions"
  let items ← toIterable mcqs
  checkTestMcqs items
  pySetKey data "quiz" quiz'

/-- Model of `call_deepseek` after the HTTP call (src/server.py lines 230-264).
The network interaction (requests.post, status check, choices lookup) is the
external backend, passed as `backend`: `.ok content` is the message content
string, `.error` a raised exception (network failure or non-200 status).
`parse` stands for `json.loads`: on success a `JValue`, on failure the syntax
error message. -/
def call_deepseek (backend : Except String String)
    (parse : String → Except String JValue) : Except String JValue := do
  let content ← backend
  let jsonText ← extractJsonBlock (cleanFences (pyStrip content))
  let data ← match parse jsonText with
    | .ok v => Except.ok v
    | .error e => Except.error ("Invalid JSON from DeepSeek: " ++ e)
  validateParsed data

/-! ### Study-suggestion enrichment (src/server.py lines 81-143) -/

/-- Bracket extraction of src/server.py lines 116-119, failure message of
line 119: raises exactly when `find` or `rfind` returned -1. -/
def extractArrayBlock (text : String) : Except String String :=
  match firstIdxOf '[' text.toList, lastIdxOf ']' text.toList with
  | some s, some e =>
      .ok (pyStrip (String.mk ((text.toList.drop s).take (e + 1 - s))))
  | _, _ => .error "No JSON array found in response"

/-- The pad list built at src/server.py lines 127-131 when fewer than three
suggestions parsed. -/
def fallbackSuggestions (topic : String) : List JValue :=
  [ .obj [("topic", .str ("Advanced " ++ topic)),
          ("description", .str "Deeper exploration of advanced concepts")],
    .obj [("topic", .str (topic ++ " Applications")),
          ("description", .str "Real-world applications and use cases")],
    .obj [("topic", .str ("Related " ++ topic ++ " Concepts")),
          ("description", .str "Important related concepts and principles")] ]

/-- The default list returned by the except-branch of
`generate_study_suggestions` (src/server.py lines 139-143). -/
def defaultSuggestions (topic : String) : List JValue :=
  [ .obj [("topic", .str ("Advanced " ++ topic)),
          ("description", .str "Explore more advanced aspects of this topic")],
    .obj [("topic", .str (topic ++ " in Practice")),
          ("description", .str "Learn practical applications and real-world uses")],
    .obj [("topic", .str ("Related Concepts to " ++ topic)),
          ("description", .str "Discover important related topics and principles")] ]

/-- The hard-coded list of the except-branch inside `api_generate`
(src/server.py lines 66-70). -/
def apiDefaultSuggestions : List JValue :=
  [ .obj [("topic", .str "Related concepts"),
          ("description", .str "Explore concepts closely related to what you just learned")],
    .obj [("topic", .str "Advanced topics"),
          ("description", .str "Dive deeper into more advanced aspects")],
    .obj [("topic", .str "Practical applications"),
          ("description", .str "Learn how this knowledge is applied in real-world scenarios")] ]

/-- Body of the try-block of `generate_study_suggestions`
(src/server.py lines 109-134).  `backend` stands for the Gemini call and
`.text` access (an exception there is `.error`), `parse` for `json.loads`.
When fewer than 3 suggestions parsed, the code runs
`suggestions = suggestions[:3] + fallbacks[len(suggestions):3]`, then returns
`suggestions[:4]`. -/
def gssAttempt (topic : String) (backend : Except String String)
    (parse : String → Except String JValue) : Except String JValue := do
  let raw ← backend
  let jsonText ← extractArrayBlock (cleanFences (pyStrip raw))
  let suggestions ← parse jsonText
  let n ← pyLen suggestions
  if n < 3 then do
    let head3 ← pySliceTo suggestions 3
    let padded ← pyConcat head3 (.arr (((fallbackSuggestions topic).drop n).take (3 - n)))
    pySliceTo padded 4
  else
    pySliceTo suggestions 4

/-- Model of `generate_study_suggestions` (src/server.py lines 81-143): any
exception inside the try-block is absorbed and replaced by the default
3-item list. -/
def generate_study_suggestions (topic : String) (backend : Except String String)
    (parse : String → Except String JValue) : JValue :=
  match gssAttempt topic backend parse with
  | .ok v => v
  | .error _ => .arr (defaultSuggestions topic)

/-! ### The HTTP endpoint (src/server.py lines 45-75) -/

/-- Outcome of `api_generate`: the success JSON, the 400 missing-topic
response, or the 500 response carrying `str(e)`. -/
inductive HttpResponse where
  | ok (body : JValue)
  | clientError (msg : String)
  | serverError (msg : String)

/-- Model of `api_generate` (src/server.py lines 45-75) after request
decoding: `topicRaw` is the request's topic field, `geminiConfigured`
whether GEMINI_API_KEY is set, and the two backend/parse pairs stand for
the DeepSeek and Gemini collaborators.  Any exception escaping
`call_deepseek` (or the suggestion assignment) becomes a 500 error. -/
def api_generate (topicRaw : String) (geminiConfigured : Bool)
    (deepseekBackend : Except String String)
    (parseDoc : String → Except String JValue)
    (geminiBackend : Except String String)
    (parseSugg : String → Except String JValue) : HttpResponse :=
  let topic := pyStrip topicRaw
  if topic.isEmpty then .clientError "Topic required"
  else
    match call_deepseek deepseekBackend parseDoc with
    | .error e => .serverError e
    | .ok result =>
      if geminiConfigured then
        let sugg := generate_study_suggestions topic geminiBackend parseSugg
        match pySetKey result "study_suggestions" sugg with
        | .ok result' => .ok result'
        | .error _ =>
            match pySetKey result "study_suggestions" (.arr apiDefaultSuggestions) with
            | .ok result' => .ok result'
            | .error e => .serverError e
      else .ok result

/-! ### Observation helpers used by the claim statements -/

/-- Whether an `Except` result is a success. -/
def isOkE {α : Type} : Except String α → Bool
  | .ok _ => true
  | .error _ => false

/-- The error message of a failed `Except` result. -/
def errMsg? {α : Type} : Except String α → Option String
  | .ok _ => none
  | .error e => some e

/-- The stored answer of the first quiz question of a successful
`validate_quiz_answers` result. -/
def firstQuizAnswer (r : Except String JValue) : Option String :=
  match r with
  | .ok (.arr (.obj f :: _)) =>
      match lookupField f "answer" with
      | some (.str a) => some a
      | _ => none
  | _ => none

/-! ### Concrete documents used as test vectors -/

/-- The quiz options of the spec's Photosynthesis scenario. -/
def photoOptions : List JValue :=
  [.str "Chlorophyll", .str "Water", .str "Sunlight", .str "Carbon Dioxide"]

/-- Quiz item whose answer differs from an option only in case. -/
def qPhoto : JValue :=
  .obj [("question", .str "Which pigment absorbs light?"),
        ("options", .arr photoOptions),
        ("answer", .str "chlorophyll")]

/-- Quiz item whose answer is a proper substring of an option. -/
def qSub : JValue :=
  .obj [("question", .str "Which pigment absorbs light?"),
        ("options", .arr photoOptions),
        ("answer", .str "chloro")]

/-- Item with only 3 options whose answer is an exact member of them. -/
def qThree : JValue :=
  .obj [("options", .arr [.str "A", .str "B", .str "C"]), ("answer", .str "A")]

/-- Item whose answer is a whitespace-only string that is literally one of
its 4 options. -/
def qBlank : JValue :=
  .obj [("options", .arr [.str " ", .str "B", .str "C", .str "D"]),
        ("answer", .str " ")]

/-- Test MCQ item whose answer matches no option under any rule. -/
def mcqBad : JValue :=
  .obj [("question", .str "?"),
        ("options", .arr [.str "Alpha", .str "Beta", .str "Gamma", .str "Delta"]),
        ("answer", .str "zzz"),
        ("explanation", .str "e")]

/-- Field list of `docMini`. -/
def docMiniFields : List (String × JValue) :=
  [("teaching_content", .str "T"), ("flashcards", .arr []),
   ("quiz", .arr []), ("test", .obj [("mcq_questions", .arr [])])]

/-- Minimal document with all four required keys present but every
cardinality requirement violated (0 flashcards, 0 quiz questions,
0 test MCQs, no QA list at all). -/
def docMini : JValue := .obj docMiniFields

/-- A deterministic stand-in for `json.loads` mapping one fixed text to
`docMini` (used to drive the pipeline in closed scenarios). -/
def parseMini : String → Except String JValue :=
  fun s => if s = "\x7bd\x7d" then .ok docMini else .error "Expecting value"

/-- A deterministic stand-in for `json.loads` mapping one fixed text to the
empty array (used to drive the enrichment controller in closed scenarios). -/
def parseEmptyArr : String → Except String JValue :=
  fun s => if s = "[]" then .ok (.arr []) else .error "Expecting value"

/-- Document whose single quiz item is repairable but whose single test MCQ
is not. -/
def docBadTest : JValue :=
  .obj [("teaching_content", .str "T"), ("flashcards", .arr []),
        ("quiz", .arr [qPhoto]),
        ("test", .obj [("mcq_questions", .arr [mcqBad]), ("qa_questions", .arr [])])]

/-- Document missing the `test` key. -/
def docNoTest : JValue :=
  .obj [("teaching_content", .str "T"), ("flashcards", .arr []), ("quiz", .arr [])]

/-! ### Supporting lemmas -/

@[simp]
theorem bindOkE {α β : Type} (a : α) (f : α → Except String β) :
    ((Except.ok a : Except String α) >>= f) = f a := rfl

@[simp]
theorem bindErrE {α β : Type} (e : String) (f : α → Except String β) :
    ((Except.error e : Except String α) >>= f) = .error e := rfl

/-- Infixes compose. -/
theorem subTrans {α : Type} {a b c : List α} (h1 : a <:+: b) (h2 : b <:+: c) :
    a <:+: c :=
   List.IsInfix.trans h1 h2

/-- `map` preserves contiguous-sublist containment. -/
theorem subOfMap {α β : Type} (f : α → β) {a b : List α} (h : a <:+: b) :
    a.map f <:+: b.map f :=
   List.IsInfix.map f h

/-- Stripping yields a contiguous sublist of the original characters. -/
theorem pyStripList_sub (l : List Char) : pyStripList l <:+: l := by
  unfold pyStripList
  have h1 : l.dropWhile isPyWs <:+ l := List.dropWhile_suffix isPyWs
  have h2 : (l.dropWhile isPyWs).reverse.dropWhile isPyWs <:+ (l.dropWhile isPyWs).reverse :=
    List.dropWhile_suffix isPyWs
  have h3 : ((l.dropWhile isPyWs).reverse.dropWhile isPyWs).reverse <+: l.dropWhile isPyWs := by
    rw [←  List.reverse_suffix, List.reverse_reverse]
    exact h2
  exact subTrans ( List.IsPrefix.isInfix h3) ( List.IsSuffix.isInfix h1)

theorem toList_mk (l : List Char) : (String.mk l).toList = l := rfl

theorem toList_append (a b : String) : (a ++ b).toList = a.toList ++ b.toList := rfl

theorem pyStrip_toList (s : String) : (pyStrip s).toList = pyStripList s.toList := rfl

theorem pyLower_toList (s : String) : (pyLower s).toList = s.toList.map pyLowerChar := rfl

/-- A middle factor of a concatenation is a substring. -/
theorem pySubstr_mid (a x b : String) : pySubstr x (a ++ x ++ b) = true := by
  apply decide_eq_true
  exact ⟨a.toList, b.toList, rfl⟩

/-- A right factor of a concatenation is a substring. -/
theorem pySubstr_right (a x : String) : pySubstr x (a ++ x) = true := by
  apply decide_eq_true
  refine ⟨a.toList, [], ?_⟩
  simp [toList_append]

/-- A left factor of a concatenation is a substring. -/
theorem pySubstr_left (x b : String) : pySubstr x (x ++ b) = true := by
  apply decide_eq_true
  exact ⟨[], b.toList, rfl⟩

/-- Substring containment is transitive. -/
theorem pySubstr_trans {x y z : String} (h1 : pySubstr x y = true)
    (h2 : pySubstr y z = true) : pySubstr x z = true := by
  apply decide_eq_true
  exact subTrans (of_decide_eq_true h1) (of_decide_eq_true h2)

/-- The lower-cased stripped answer is a substring of the lower-cased answer. -/
theorem lower_strip_substr (a : String) :
    pySubstr (pyLower (pyStrip a)) (pyLower a) = true := by
  apply decide_eq_true
  rw [pyLower_toList, pyLower_toList, pyStrip_toList]
  exact subOfMap pyLowerChar (pyStripList_sub a.toList)

/-- Mapping the `.lower()` receiver check over genuine strings succeeds. -/
theorem mapM_asLowerable (opts : List String) :
    (opts.map JValue.str).mapM asLowerable = Except.ok opts := by
  induction opts with
  | nil => rfl
  | cons o rest ih =>
      rw [List.map_cons, List.mapM_cons, ih]
      rfl

/-- Extending a substring containment to the right. -/
theorem pySubstr_extendR {x a : String} (b : String) (h : pySubstr x a = true) :
    pySubstr x (a ++ b) = true :=
  pySubstr_trans h (pySubstr_left a b)

/-- Extending a substring containment to the left. -/
theorem pySubstr_extendL (a : String) {x b : String} (h : pySubstr x b = true) :
    pySubstr x (a ++ b) = true :=
  pySubstr_trans h (pySubstr_right a b)

/-- Behaviour of one quiz-question validation once the item is well-typed
(string answer, 4 string options) and the trimmed answer is non-empty:
the computation reduces to the membership test and the fuzzy-repair scan. -/
theorem validateOne_eq (i : Nat) (fields : List (String × JValue)) (a : String)
    (opts : List String)
    (ha : lookupField fields "answer" = some (.str a))
    (ho : lookupField fields "options" = some (.arr (opts.map JValue.str)))
    (hne : (pyStrip a).isEmpty = false)
    (hlen : opts.length = 4) :
    validateOne i (.obj fields) =
      (if pyLower (pyStrip a) ∈ opts.map pyLower then Except.ok (.obj fields)
       else
         match findRepair (pyLower (pyStrip a)) opts with
         | some opt => Except.ok (.obj (setField fields "answer" (.str opt)))
         | none =>
             Except.error (msgMismatch (i + 1) (pyStrip a) (.arr (opts.map JValue.str)))) := by
  have hop : opts ≠ [] := by
    intro h
    rw [h] at hlen
    simp at hlen
  have hfalsy : pyFalsy (.arr (opts.map JValue.str)) = false := by
    simp [pyFalsy]
    exact hop
  have hlenE : pyLen (.arr (opts.map JValue.str)) = .ok 4 := by
    simp [pyLen, hlen]
  unfold validateOne
  rw [show pyGet (.obj fields) "answer" (.str "") = .ok (.str a) by simp [pyGet, ha]]
  rw [bindOkE]
  rw [show asStrippable (.str a) = .ok a from rfl]
  rw [bindOkE]
  rw [show pyGet (.obj fields) "options" (.arr []) = .ok (.arr (opts.map JValue.str)) by
        simp [pyGet, ho]]
  rw [bindOkE, hne, hfalsy]
  simp only [Bool.false_eq_true, if_false]
  rw [hlenE, bindOkE]
  simp only [ne_eq, reduceIte, not_true_eq_false]
  rw [show toIterable (.arr (opts.map JValue.str)) = .ok (opts.map JValue.str) from rfl]
  rw [bindOkE, mapM_asLowerable, bindOkE]
  rfl

/-- Behaviour of one quiz-question validation when the options list does not
have exactly 4 entries: the field-named count error is raised. -/
theorem validateOne_badCount (i : Nat) (fields : List (String × JValue)) (a : String)
    (l : List JValue)
    (ha : lookupField fields "answer" = some (.str a))
    (ho : lookupField fields "options" = some (.arr l))
    (hne : (pyStrip a).isEmpty = false)
    (hlen : l.length ≠ 4) :
    validateOne i (.obj fields) = .error (msgOptionCount (i + 1)) := by
  unfold validateOne
  rw [show pyGet (.obj fields) "answer" (.str "") = .ok (.str a) by simp [pyGet, ha]]
  rw [bindOkE]
  rw [show asStrippable (.str a) = .ok a from rfl]
  rw [bindOkE]
  rw [show pyGet (.obj fields) "options" (.arr []) = .ok (.arr l) by simp [pyGet, ho]]
  rw [bindOkE, hne]
  simp only [Bool.false_eq_true, if_false]
  cases l with
  | nil => rfl
  | cons x rest =>
      rw [show pyFalsy (.arr (x :: rest)) = false from rfl]
      simp only [Bool.false_eq_true, if_false]
      rw [show pyLen (.arr (x :: rest)) = .ok (x :: rest).length from rfl, bindOkE]
      rw [if_pos hlen]

/-- Python equality of a string against a list of wrapped strings is plain
string membership testing. -/
theorem any_pyEq_str (a : String) (opts : List String) :
    ((opts.map JValue.str).any fun x => pyEq (.str a) x) = opts.any fun o => a = o := by
  induction opts with
  | nil => rfl
  | cons o rest ih =>
      rw [List.map_cons, List.any_cons, ih, List.any_cons]
      rw [show pyEq (.str a) (.str o) = decide (a = o) from by simp [pyEq]]

/-- The test-MCQ check on a single well-typed item reduces to exact
membership of the answer string in the option strings. -/
theorem checkTest_single (fields : List (String × JValue)) (a : String)
    (opts : List String)
    (ha : lookupField fields "answer" = some (.str a))
    (ho : lookupField fields "options" = some (.arr (opts.map JValue.str))) :
    checkTestMcqs [.obj fields] =
      (if a ∈ opts then .ok () else .error (msgTestMismatch (.str a))) := by
  unfold checkTestMcqs
  rw [show pySubscript (.obj fields) "answer" = .ok (.str a) by simp [pySubscript, ha]]
  rw [bindOkE]
  rw [show pySubscript (.obj fields) "options" = .ok (.arr (opts.map JValue.str)) by
        simp [pySubscript, ho]]
  rw [bindOkE]
  rw [show pyInValue (.str a) (.arr (opts.map JValue.str)) =
        .ok (opts.any fun o => a = o) by
      simp only [pyInValue]
      rw [any_pyEq_str]]
  rw [bindOkE]
  by_cases hm : a ∈ opts
  · rw [if_pos hm]
    have : (opts.any fun o => a = o) = true := by
      rw [List.any_eq_true]
      exact ⟨a, hm, by simp⟩
    rw [this]
    rfl
  · rw [if_neg hm]
    have : (opts.any fun o => a = o) = false := by
      rw [List.any_eq_false]
      intro x hx h
      exact hm (by simpa [of_decide_eq_true h] using hx)
    rw [this]
    rfl

/-- `validate_quiz_answers` on a one-question quiz runs `validateOne` at
index 0 and keeps the (possibly repaired) question. -/
theorem validate_single (q : JValue) :
    validate_quiz_answers (.arr [q]) =
      (match validateOne 0 q with
       | .ok q' => .ok (.arr [q'])
       | .error e => .error e) := by
  unfold validate_quiz_answers
  rw [show toIterable (.arr [q]) = .ok [q] from rfl, bindOkE]
  cases h : validateOne 0 q with
  | ok q' =>
      rw [show validateLoop 0 [q] = .ok [q'] from by unfold validateLoop validateLoop; rw [h]; rfl]
      rfl
  | error e =>
      rw [show validateLoop 0 [q] = .error e from by unfold validateLoop; rw [h]; rfl]
      rfl

/-- The quiz mismatch message contains the offending answer verbatim. -/
theorem msgMismatch_names_answer (n : Nat) (ans : String) (v : JValue) :
    pySubstr ans (msgMismatch n ans v) = true := by
  unfold msgMismatch
  apply decide_eq_true
  refine ⟨("Quiz question " ++ toString n ++ " answer '").toList,
          ("' doesn't match any option: " ++ pyStrOf v).toList, ?_⟩
  simp [toList_append, List.append_assoc]

/-- A member of the option list appears verbatim in the repr of the wrapped
option list. -/
theorem mem_reprItems (o : String) (opts : List String) (hm : o ∈ opts) :
    pySubstr o (reprItems (opts.map JValue.str)) = true := by
  induction opts with
  | nil => cases hm
  | cons x rest ih =>
      cases hm with
      | head =>
          cases rest with
          | nil =>
              rw [show reprItems ([o].map JValue.str) = "'" ++ o ++ "'" from by
                    simp [reprItems, pyReprOf]]
              exact pySubstr_mid "'" o "'"
          | cons y ys =>
              rw [show reprItems ((o :: y :: ys).map JValue.str) =
                    ("'" ++ o ++ "'") ++ ", " ++ reprItems ((y :: ys).map JValue.str) from by
                    simp [reprItems, pyReprOf]]
              exact pySubstr_extendR _ (pySubstr_extendR ", " (pySubstr_mid "'" o "'"))
      | tail _ hmem =>
          cases rest with
          | nil => cases hmem
          | cons y ys =>
              rw [show reprItems ((x :: y :: ys).map JValue.str) =
                    (pyReprOf (.str x) ++ ", ") ++ reprItems ((y :: ys).map JValue.str) from by
                    simp [reprItems]]
              exact pySubstr_extendL _ (ih hmem)

/-- The quiz mismatch message contains every option verbatim. -/
theorem msgMismatch_names_options (n : Nat) (ans o : String) (opts : List String)
    (hm : o ∈ opts) :
    pySubstr o (msgMismatch n ans (.arr (opts.map JValue.str))) = true := by
  unfold msgMismatch
  have h1 : pySubstr o (pyStrOf (.arr (opts.map JValue.str))) = true := by
    rw [show pyStrOf (.arr (opts.map JValue.str)) =
          "[" ++ reprItems (opts.map JValue.str) ++ "]" from by simp [pyStrOf]]
    exact pySubstr_extendR "]" (pySubstr_extendL "[" (mem_reprItems o opts hm))
  exact pySubstr_extendL _ h1

/-- The test mismatch message contains the offending answer verbatim. -/
theorem msgTest_names_answer (a : String) :
    pySubstr a (msgTestMismatch (.str a)) = true := by
  unfold msgTestMismatch
  rw [show pyStrOf (JValue.str a) = a from by simp [pyStrOf]]
  exact pySubstr_mid "Test MCQ answer '" a "' not found in options"

/-- When the enrichment backend raises, the controller substitutes the
default 3-item list. -/
theorem gss_backend_error (topic e : String) (parse : String → Except String JValue) :
    generate_study_suggestions topic (.error e) parse = .arr (defaultSuggestions topic) := rfl

/-! ### Claim C1 -/

/-- C1 counterexample: in the spec's own Photosynthesis scenario (answer
"chlorophyll", options containing "Chlorophyll"), the repair pass accepts
the item but leaves the stored answer as "chlorophyll" — the claimed rewrite
to the option's original casing does not happen, so the accepted answer is
not byte-for-byte equal to the option. -/
theorem c1_counterexample :
    isOkE (validate_quiz_answers (.arr [qPhoto])) = true ∧
    firstQuizAnswer (validate_quiz_answers (.arr [qPhoto])) = some "chlorophyll" ∧
    "chlorophyll" ≠ "Chlorophyll" :=
  ⟨rfl, rfl, by decide⟩

/-- C1 (amended): when the lower-cased trimmed answer equals a lower-cased
option (item well-typed, 4 options, non-empty trimmed answer), the repair
pass accepts the item and leaves the stored question — including its
answer — entirely unchanged; no rewrite to the option's casing occurs. -/
theorem c1_case_insensitive_accept_no_rewrite (i : Nat)
    (fields : List (String × JValue)) (a : String) (opts : List String)
    (ha : lookupField fields "answer" = some (.str a))
    (ho : lookupField fields "options" = some (.arr (opts.map JValue.str)))
    (hne : (pyStrip a).isEmpty = false)
    (hlen : opts.length = 4)
    (hmem : pyLower (pyStrip a) ∈ opts.map pyLower) :
    validateOne i (.obj fields) = .ok (.obj fields) := by
  rw [validateOne_eq i fields a opts ha ho hne hlen, if_pos hmem]

/-- C1 witness: the amended theorem applied to the Photosynthesis item. -/
theorem c1_witness :
    validateOne 0 (.obj [("question", .str "Which pigment absorbs light?"),
        ("options", .arr photoOptions), ("answer", .str "chlorophyll")]) =
      .ok (.obj [("question", .str "Which pigment absorbs light?"),
        ("options", .arr photoOptions), ("answer", .str "chlorophyll")]) :=
  c1_case_insensitive_accept_no_rewrite 0 _ "chlorophyll"
    ["Chlorophyll", "Water", "Sunlight", "Carbon Dioxide"] rfl rfl rfl rfl (by decide)

/-! ### Claim C2 -/

/-- C2 counterexample: the very same item (answer "chlorophyll", options
containing "Chlorophyll") is accepted by the quiz validator but rejected by
the test-MCQ check, so quiz questions and test MCQ questions are not
validated by the same rule set. -/
theorem c2_counterexample :
    isOkE (validate_quiz_answers (.arr [qPhoto])) = true ∧
    isOkE (checkTestMcqs [qPhoto]) = false :=
  ⟨rfl, rfl⟩

/-- C2 (amended): quiz items and test MCQ items are validated by different
rule sets.  (1) For every well-typed test MCQ item — with no restriction on
the option count or on the answer's emptiness — the test check accepts
exactly when the answer is an exact member of the options, and otherwise
raises the answer-naming error: there is no repair, no exactly-4-options
check, and no non-empty-trimmed-answer check on the test path.
(2) Acceptance diverges in both directions: a 3-option item whose answer is
an exact member, and an item whose whitespace-only answer is literally an
option, are each test-accepted yet quiz-rejected, while the case-mismatched
Photosynthesis item is quiz-accepted yet test-rejected.  (3) Only under the
quiz path's fail-fast preconditions (exactly 4 options and a non-empty
trimmed answer) is a test-accepted item also quiz-accepted. -/
theorem c2_test_exact_membership_only :
    (∀ (fields : List (String × JValue)) (a : String) (opts : List String),
      lookupField fields "answer" = some (.str a) →
      lookupField fields "options" = some (.arr (opts.map JValue.str)) →
      checkTestMcqs [.obj fields] =
        (if a ∈ opts then .ok () else .error (msgTestMismatch (.str a)))) ∧
    (checkTestMcqs [qThree] = .ok () ∧ isOkE (validateOne 0 qThree) = false) ∧
    (checkTestMcqs [qBlank] = .ok () ∧ isOkE (validateOne 0 qBlank) = false) ∧
    (isOkE (validateOne 0 qPhoto) = true ∧ isOkE (checkTestMcqs [qPhoto]) = false) ∧
    (∀ (i : Nat) (fields : List (String × JValue)) (a : String) (opts : List String),
      lookupField fields "answer" = some (.str a) →
      lookupField fields "options" = some (.arr (opts.map JValue.str)) →
      (pyStrip a).isEmpty = false →
      opts.length = 4 →
      a ∈ opts →
      isOkE (validateOne i (.obj fields)) = true) := by
  refine ⟨fun fields a opts ha ho => checkTest_single fields a opts ha ho,
          ⟨rfl, rfl⟩, ⟨rfl, rfl⟩, ⟨rfl, rfl⟩, ?_⟩
  intro i fields a opts ha ho hne hlen hm
  rw [validateOne_eq i fields a opts ha ho hne hlen]
  by_cases hml : pyLower (pyStrip a) ∈ opts.map pyLower
  · rw [if_pos hml]
    rfl
  · rw [if_neg hml]
    cases hf : findRepair (pyLower (pyStrip a)) opts with
    | some opt => rfl
    | none =>
        exfalso
        apply List.find?_eq_none.mp hf a hm
        show (pySubstr (pyLower (pyStrip a)) (pyLower a) ||
              pySubstr (pyLower a) (pyLower (pyStrip a))) = true
        rw [lower_strip_substr]
        rfl

/-- C2 witness: the exact-membership characterization applied to an item
whose answer "Water" is exactly one of the options, and the conditional
inclusion applied to the same item. -/
theorem c2_witness :
    checkTestMcqs [.obj [("options", .arr photoOptions), ("answer", .str "Water")]] =
      (if "Water" ∈ ["Chlorophyll", "Water", "Sunlight", "Carbon Dioxide"] then .ok ()
       else .error (msgTestMismatch (.str "Water"))) ∧
    isOkE (validateOne 0 (.obj [("options", .arr photoOptions),
      ("answer", .str "Water")])) = true :=
  ⟨c2_test_exact_membership_only.1 _ "Water"
      ["Chlorophyll", "Water", "Sunlight", "Carbon Dioxide"] rfl rfl,
   c2_test_exact_membership_only.2.2.2.2 0 _ "Water"
      ["Chlorophyll", "Water", "Sunlight", "Carbon Dioxide"] rfl rfl rfl rfl (by decide)⟩

/-! ### Claim C3 -/

/-- C3 counterexample: a parsed document with 0 flashcards, 0 quiz
questions, 0 test MCQs and no QA list at all — violating every cardinality
requirement — is accepted unchanged by the pipeline's validation instead of
failing with a field-named error. -/
theorem c3_counterexample :
    validateParsed docMini = Except.ok docMini ∧
    pySubscript docMini "flashcards" = .ok (.arr []) ∧
    pySubscript docMini "quiz" = .ok (.arr []) ∧
    ([] : List JValue).length ≠ 5 :=
  ⟨rfl, rfl, rfl, by decide⟩

/-- C3 (amended): of all the cardinality requirements, only the
4-options-per-quiz-item count is enforced: a quiz item whose options list
does not have exactly 4 entries fails with an error naming the question and
the option-count requirement.  The flashcard/quiz/MCQ/QA collection counts
are not checked anywhere (see the counterexample's accepted document). -/
theorem c3_option_count_enforced (i : Nat) (fields : List (String × JValue))
    (a : String) (l : List JValue)
    (ha : lookupField fields "answer" = some (.str a))
    (ho : lookupField fields "options" = some (.arr l))
    (hne : (pyStrip a).isEmpty = false)
    (hlen : l.length ≠ 4) :
    validateOne i (.obj fields) = .error (msgOptionCount (i + 1)) ∧
    pySubstr (toString (i + 1)) (msgOptionCount (i + 1)) = true :=
  ⟨validateOne_badCount i fields a l ha ho hne hlen,
   pySubstr_mid "Quiz question " (toString (i + 1)) " must have exactly 4 options"⟩

/-- C3 witness: the amended theorem applied to an item with 3 options. -/
theorem c3_witness :
    validateOne 0 (.obj [("options", .arr [.str "A", .str "B", .str "C"]),
        ("answer", .str "A")]) = .error (msgOptionCount 1) ∧
    pySubstr (toString 1) (msgOptionCount 1) = true :=
  c3_option_count_enforced 0 _ "A" [.str "A", .str "B", .str "C"] rfl rfl rfl (by decide)

/-! ### Claim C4 -/

/-- C4 counterexample: the test MCQ with answer "zzz" and options
Alpha/Beta/Gamma/Delta fails all three repair rules, yet the raised error
message names neither the full option list (it does not even contain
"Alpha") nor the question index — contrary to the claim that every
unrepairable MCQ item yields an error naming the index, the answer, and the
option list. -/
theorem c4_counterexample :
    errMsg? (validateParsed docBadTest) =
      some "Test MCQ answer 'zzz' not found in options" ∧
    pySubstr "Alpha" "Test MCQ answer 'zzz' not found in options" = false ∧
    pySubstr "Quiz question" "Test MCQ answer 'zzz' not found in options" = false :=
  ⟨rfl, by decide, by decide⟩

/-- C4 (amended): when no repair rule succeeds, the request aborts with no
document in both cases, but the errors differ: an unrepairable quiz item
raises an error naming the question index, the offending answer, and every
option verbatim, while an unmatched test MCQ raises an error naming only
the offending answer.  Any `call_deepseek` failure makes the endpoint
return the error with no document. -/
theorem c4_error_naming_and_abort (i : Nat)
    (fields tfields : List (String × JValue)) (a b topic e : String)
    (opts topts : List String) (g : Bool)
    (bk gb : Except String String) (p p2 : String → Except String JValue)
    (ha : lookupField fields "answer" = some (.str a))
    (ho : lookupField fields "options" = some (.arr (opts.map JValue.str)))
    (hne : (pyStrip a).isEmpty = false)
    (hlen : opts.length = 4)
    (hml : pyLower (pyStrip a) ∉ opts.map pyLower)
    (hfr : findRepair (pyLower (pyStrip a)) opts = none)
    (hb : lookupField tfields "answer" = some (.str b))
    (hbo : lookupField tfields "options" = some (.arr (topts.map JValue.str)))
    (hbm : b ∉ topts)
    (ht : (pyStrip topic).isEmpty = false)
    (hcd : call_deepseek bk p = .error e) :
    validateOne i (.obj fields) =
        .error (msgMismatch (i + 1) (pyStrip a) (.arr (opts.map JValue.str))) ∧
    pySubstr (toString (i + 1))
        (msgMismatch (i + 1) (pyStrip a) (.arr (opts.map JValue.str))) = true ∧
    pySubstr (pyStrip a)
        (msgMismatch (i + 1) (pyStrip a) (.arr (opts.map JValue.str))) = true ∧
    (∀ o ∈ opts,
      pySubstr o (msgMismatch (i + 1) (pyStrip a) (.arr (opts.map JValue.str))) = true) ∧
    checkTestMcqs [.obj tfields] = .error (msgTestMismatch (.str b)) ∧
    pySubstr b (msgTestMismatch (.str b)) = true ∧
    api_generate topic g bk p gb p2 = .serverError e := by
  refine ⟨?_, ?_, msgMismatch_names_answer _ _ _,
          fun o ho2 => msgMismatch_names_options _ _ o opts ho2, ?_, msgTest_names_answer b, ?_⟩
  · rw [validateOne_eq i fields a opts ha ho hne hlen, if_neg hml, hfr]
  · unfold msgMismatch
    apply pySubstr_extendR
    apply pySubstr_extendR
    apply pySubstr_extendR
    exact pySubstr_mid "Quiz question " (toString (i + 1)) " answer '"
  · rw [checkTest_single tfields b topts hb hbo, if_neg hbm]
  · unfold api_generate
    simp only [ht, Bool.false_eq_true, if_false, hcd]

/-- C4 witness: the amended theorem applied to a quiz item with answer
"zzz", a test MCQ with answer "zzz", and a failing backend. -/
theorem c4_witness :
    validateOne 0 (.obj [("options", .arr [.str "Alpha", .str "Beta", .str "Gamma", .str "Delta"]),
        ("answer", .str "zzz")]) =
      .error (msgMismatch 1 (pyStrip "zzz")
        (.arr (["Alpha", "Beta", "Gamma", "Delta"].map JValue.str))) ∧
    pySubstr (toString 1) (msgMismatch 1 (pyStrip "zzz")
        (.arr (["Alpha", "Beta", "Gamma", "Delta"].map JValue.str))) = true ∧
    pySubstr (pyStrip "zzz") (msgMismatch 1 (pyStrip "zzz")
        (.arr (["Alpha", "Beta", "Gamma", "Delta"].map JValue.str))) = true ∧
    (∀ o ∈ ["Alpha", "Beta", "Gamma", "Delta"],
      pySubstr o (msgMismatch 1 (pyStrip "zzz")
        (.arr (["Alpha", "Beta", "Gamma", "Delta"].map JValue.str))) = true) ∧
    checkTestMcqs [.obj [("options", .arr [.str "Alpha", .str "Beta", .str "Gamma", .str "Delta"]),
        ("answer", .str "zzz")]] = .error (msgTestMismatch (.str "zzz")) ∧
    pySubstr "zzz" (msgTestMismatch (.str "zzz")) = true ∧
    api_generate "Topic" true (.error "DeepSeek API Error: boom") parseMini
        (.error "timeout") parseMini = .serverError "DeepSeek API Error: boom" :=
  c4_error_naming_and_abort 0 _ _ "zzz" "zzz" "Topic" "DeepSeek API Error: boom"
    ["Alpha", "Beta", "Gamma", "Delta"] ["Alpha", "Beta", "Gamma", "Delta"] true
    (.error "DeepSeek API Error: boom") (.error "timeout") parseMini parseMini
    rfl rfl rfl rfl (by decide) (by decide) rfl rfl (by decide) rfl rfl

/-! ### Claim C5 -/

/-- Reduction of the enrichment attempt once extraction and parsing have
produced an array of suggestions. -/
theorem gss_ok_arr (topic raw jt : String) (parse : String → Except String JValue)
    (l : List JValue)
    (hext : extractArrayBlock (cleanFences (pyStrip raw)) = .ok jt)
    (hpj : parse jt = .ok (.arr l)) :
    generate_study_suggestions topic (.ok raw) parse =
      (if l.length < 3 then
         .arr ((l.take 3 ++ ((fallbackSuggestions topic).drop l.length).take (3 - l.length)).take 4)
       else .arr (l.take 4)) := by
  unfold generate_study_suggestions gssAttempt
  rw [bindOkE, hext, bindOkE, hpj, bindOkE]
  rw [show pyLen (.arr l) = .ok l.length from rfl, bindOkE]
  by_cases h3 : l.length < 3
  · rw [if_pos h3, if_pos h3]
    rw [show pySliceTo (.arr l) 3 = .ok (.arr (l.take 3)) from rfl, bindOkE]
    rw [show pyConcat (.arr (l.take 3))
          (.arr (((fallbackSuggestions topic).drop l.length).take (3 - l.length))) =
        .ok (.arr (l.take 3 ++ ((fallbackSuggestions topic).drop l.length).take (3 - l.length)))
        from rfl, bindOkE]
    rfl
  · rw [if_neg h3, if_neg h3]
    rfl

/-- C5: the enrichment controller's fallback policy.  (1) If the backend
call raises, the fixed default 3-item list derived from the topic is
returned.  (2)-(4) When extraction yields a text that parses to an array:
zero suggestions are replaced by the 3 topic-derived filler items, 1-2
suggestions are padded up to 3 with those fillers, and more than 4 are
truncated to the first 4.  (5) Every filler item references the topic in
its `topic` field. -/
theorem c5_fallback_policy (topic raw e jt : String)
    (parse : String → Except String JValue) :
    (generate_study_suggestions topic (.error e) parse = .arr (defaultSuggestions topic) ∧
     (defaultSuggestions topic).length = 3) ∧
    (extractArrayBlock (cleanFences (pyStrip raw)) = .ok jt →
      (parse jt = .ok (.arr []) →
        generate_study_suggestions topic (.ok raw) parse = .arr (fallbackSuggestions topic) ∧
        (fallbackSuggestions topic).length = 3) ∧
      (∀ l : List JValue, parse jt = .ok (.arr l) → 1 ≤ l.length → l.length ≤ 2 →
        generate_study_suggestions topic (.ok raw) parse =
          .arr (l ++ (fallbackSuggestions topic).drop l.length) ∧
        (l ++ (fallbackSuggestions topic).drop l.length).length = 3) ∧
      (∀ l : List JValue, parse jt = .ok (.arr l) → 4 < l.length →
        generate_study_suggestions topic (.ok raw) parse = .arr (l.take 4) ∧
        (l.take 4).length = 4)) ∧
    (∀ v ∈ fallbackSuggestions topic, ∃ fs t, v = .obj fs ∧
        lookupField fs "topic" = some (.str t) ∧ pySubstr topic t = true) := by
  refine ⟨⟨gss_backend_error topic e parse, rfl⟩, ?_, ?_⟩
  · intro hext
    refine ⟨?_, ?_, ?_⟩
    · intro hpj
      rw [gss_ok_arr topic raw jt parse [] hext hpj]
      exact ⟨rfl, rfl⟩
    · intro l hpj h1 h2
      rw [gss_ok_arr topic raw jt parse l hext hpj]
      have hlt : l.length < 3 := by omega
      rw [if_pos hlt]
      have htake3 : l.take 3 = l := List.take_of_length_le (by omega)
      have hdlen : ((fallbackSuggestions topic).drop l.length).length = 3 - l.length := by
        rw [List.length_drop]
        rfl
      have htaked : ((fallbackSuggestions topic).drop l.length).take (3 - l.length) =
          (fallbackSuggestions topic).drop l.length :=
        List.take_of_length_le (by omega)
      have hlen3 : (l ++ (fallbackSuggestions topic).drop l.length).length = 3 := by
        rw [List.length_append, hdlen]
        omega
      rw [htake3, htaked]
      constructor
      · rw [List.take_of_length_le (by omega)]
      · exact hlen3
    · intro l hpj h4
      rw [gss_ok_arr topic raw jt parse l hext hpj]
      rw [if_neg (by omega)]
      exact ⟨rfl, by rw [List.length_take]; omega⟩
  · intro v hv
    simp only [fallbackSuggestions, List.mem_cons, List.not_mem_nil, or_false] at hv
    rcases hv with rfl | rfl | rfl
    · exact ⟨_, "Advanced " ++ topic, rfl, rfl, pySubstr_right "Advanced " topic⟩
    · exact ⟨_, topic ++ " Applications", rfl, rfl, pySubstr_left topic " Applications"⟩
    · exact ⟨_, "Related " ++ topic ++ " Concepts", rfl, rfl,
        pySubstr_mid "Related " topic " Concepts"⟩

/-- C5 witness: the policy theorem instantiated with a failing backend and
with a backend returning the empty array. -/
theorem c5_witness :
    (generate_study_suggestions "Photosynthesis" (.error "timeout") parseEmptyArr =
        .arr (defaultSuggestions "Photosynthesis") ∧
      (defaultSuggestions "Photosynthesis").length = 3) ∧
    (generate_study_suggestions "Photosynthesis" (.ok "[]") parseEmptyArr =
        .arr (fallbackSuggestions "Photosynthesis") ∧
      (fallbackSuggestions "Photosynthesis").length = 3) :=
  ⟨(c5_fallback_policy "Photosynthesis" "[]" "timeout" "[]" parseEmptyArr).1,
   ((c5_fallback_policy "Photosynthesis" "[]" "timeout" "[]" parseEmptyArr).2.1 rfl).1 rfl⟩

/-! ### Claim C6 -/

/-- Setting one key leaves the lookup of every other key unchanged. -/
theorem lookup_setField_ne (fields : List (String × JValue)) (key k : String)
    (v : JValue) (hk : k ≠ key) :
    lookupField (setField fields key v) k = lookupField fields k := by
  induction fields with
  | nil =>
      have hkk : ¬ (key = k) := fun h => hk h.symm
      simp [setField, lookupField, hkk]
  | cons kv rest ih =>
      obtain ⟨k0, v0⟩ := kv
      by_cases h0 : k0 = key
      · subst h0
        have hkk : ¬ (k0 = k) := fun h => hk (h ▸ rfl)
        simp [setField, lookupField, hkk]
      · by_cases h1 : k0 = k
        · simp [setField, h0, lookupField, h1, hk]
        · simp [setField, h0, lookupField, h1, hk, ih]

/-- C6: when the primary pipeline succeeds with a document and the
enrichment backend fails, the endpoint still returns 200 with the primary
document: every pre-existing field is unchanged, a 3-item default
`study_suggestions` list is added, and the enrichment failure is never
propagated. -/
theorem c6_enrichment_failure_isolated (topic e : String)
    (fields : List (String × JValue))
    (bk : Except String String) (p p2 : String → Except String JValue)
    (hne : (pyStrip topic).isEmpty = false)
    (hok : call_deepseek bk p = .ok (.obj fields)) :
    api_generate topic true bk p (.error e) p2 =
      .ok (.obj (setField fields "study_suggestions"
        (.arr (defaultSuggestions (pyStrip topic))))) ∧
    (∀ k, k ≠ "study_suggestions" →
      lookupField (setField fields "study_suggestions"
        (.arr (defaultSuggestions (pyStrip topic)))) k = lookupField fields k) ∧
    (defaultSuggestions (pyStrip topic)).length = 3 := by
  refine ⟨?_, fun k hk => lookup_setField_ne fields "study_suggestions" k _ hk, rfl⟩
  unfold api_generate
  simp only [hne, Bool.false_eq_true, if_false, hok]
  rw [gss_backend_error]
  rfl

/-- C6 witness: the theorem applied to a concrete accepted document and a
timed-out enrichment backend. -/
theorem c6_witness :
    api_generate "Photosynthesis" true (.ok "\x7bd\x7d") parseMini
        (.error "timeout") parseMini =
      .ok (.obj (setField docMiniFields "study_suggestions"
        (.arr (defaultSuggestions (pyStrip "Photosynthesis"))))) ∧
    (∀ k, k ≠ "study_suggestions" →
      lookupField (setField docMiniFields "study_suggestions"
        (.arr (defaultSuggestions (pyStrip "Photosynthesis")))) k =
      lookupField docMiniFields k) ∧
    (defaultSuggestions (pyStrip "Photosynthesis")).length = 3 :=
  c6_enrichment_failure_isolated "Photosynthesis" "timeout" docMiniFields
    (.ok "\x7bd\x7d") parseMini parseMini rfl rfl

/-! ### Claim C7 -/

/-- C7 counterexample: in the text consisting of a closing brace followed
by an opening brace, the last closing brace (index 0) is not strictly after
the first opening brace (index 1), yet extraction succeeds instead of
failing — the extractor only checks that both braces exist. -/
theorem c7_counterexample :
    isOkE (extractJsonBlock "\x7d\x7b") = true ∧
    firstIdxOf lbrace "\x7d\x7b".toList = some 1 ∧
    lastIdxOf rbrace "\x7d\x7b".toList = some 0 :=
  ⟨rfl, rfl, rfl⟩

/-- C7 (amended): the extractor fails exactly when the cleaned text
contains no opening brace or no closing brace at all, regardless of their
relative order; in particular brace-free backend text such as
"Sorry, I cannot help." fails at the extraction stage for every parser. -/
theorem c7_brace_presence_only :
    (∀ t : String, isOkE (extractJsonBlock t) = false ↔
      (firstIdxOf lbrace t.toList = none ∨ lastIdxOf rbrace t.toList = none)) ∧
    (∀ parse : String → Except String JValue,
      call_deepseek (.ok "Sorry, I cannot help.") parse =
        .error "DeepSeek did not return JSON") := by
  constructor
  · intro t
    unfold extractJsonBlock
    cases h1 : firstIdxOf lbrace t.toList with
    | none => simp [isOkE]
    | some s =>
        cases h2 : lastIdxOf rbrace t.toList with
        | none => simp [isOkE]
        | some e2 => simp [isOkE]
  · intro parse
    rfl

/-! ### Claim C8 -/

/-- C8 counterexample: a parsed top-level value that is a number makes the
required-field check raise a type error that names no field, so it is not
true that for every parsed top-level value a missing key produces an error
naming that key (every key is missing here). -/
theorem c8_counterexample :
    errMsg? (validateParsed (.num 0)) = some "TypeError: argument is not iterable" ∧
    pySubstr "teaching_content" "TypeError: argument is not iterable" = false :=
  ⟨rfl, by decide⟩

/-- The required-field loop over a mapping returns the error naming the
first key (in list order) that is absent, and succeeds otherwise. -/
theorem checkRequired_eq (fs : List String) (fields : List (String × JValue)) :
    checkRequired fs (.obj fields) =
      (match fs.find? (fun f => !(fields.any fun kv => kv.1 = f)) with
       | some f => .error (msgMissing f)
       | none => .ok ()) := by
  induction fs with
  | nil => rfl
  | cons f rest ih =>
      simp only [checkRequired]
      rw [show pyContains (.obj fields) f = .ok (fields.any fun kv => kv.1 = f) from rfl,
          bindOkE]
      by_cases hf : (fields.any fun kv => kv.1 = f) = true
      · rw [if_pos hf, ih, List.find?_cons_of_neg _ (by simp [hf])]
      · rw [if_neg hf, List.find?_cons_of_pos _ (by simp [Bool.of_not_eq_true hf])]

/-- C8 (amended): for every parsed top-level mapping, the four required
keys are checked in source order with short-circuit, and the first missing
key is named in the error; in particular a mapping with the first three
keys but no `test` key fails with the error naming `test` (values that do
not support membership testing fail with an unnamed type error instead —
see the counterexample). -/
theorem c8_ordered_first_missing :
    (∀ fields : List (String × JValue),
      checkRequired requiredFields (.obj fields) =
        (match requiredFields.find? (fun f => !(fields.any fun kv => kv.1 = f)) with
         | some f => .error (msgMissing f)
         | none => .ok ())) ∧
    (∀ fields : List (String × JValue),
      (fields.any fun kv => kv.1 = "teaching_content") = true →
      (fields.any fun kv => kv.1 = "flashcards") = true →
      (fields.any fun kv => kv.1 = "quiz") = true →
      (fields.any fun kv => kv.1 = "test") = false →
      validateParsed (.obj fields) = .error (msgMissing "test") ∧
      pySubstr "test" (msgMissing "test") = true) := by
  refine ⟨fun fields => checkRequired_eq requiredFields fields, ?_⟩
  intro fields h1 h2 h3 h4
  have hreq : checkRequired requiredFields (.obj fields) = .error (msgMissing "test") := by
    rw [checkRequired_eq]
    rw [show requiredFields = ["teaching_content", "flashcards", "quiz", "test"] from rfl]
    rw [List.find?_cons_of_neg _ (by simp [h1]),
        List.find?_cons_of_neg _ (by simp [h2]),
        List.find?_cons_of_neg _ (by simp [h3]),
        List.find?_cons_of_pos _ (by simp [h4])]
  constructor
  · unfold validateParsed
    rw [hreq]
    rfl
  · exact pySubstr_right "DeepSeek JSON missing required field: " "test"

/-- C8 witness: the amended theorem applied to a document carrying the
first three keys and no `test` key. -/
theorem c8_witness :
    validateParsed (.obj [("teaching_content", .str "T"), ("flashcards", .arr []),
        ("quiz", .arr [])]) = .error (msgMissing "test") ∧
    pySubstr "test" (msgMissing "test") = true :=
  c8_ordered_first_missing.2 _ rfl rfl rfl rfl

/-! ### Claim C9 -/

/-- C9: for a well-typed quiz item whose trimmed answer matches no option
case-insensitively, but for which the fuzzy scan finds a first option whose
lower-cased text contains the lower-cased answer or vice versa, the stored
answer is rewritten to that option's exact text and the item is accepted. -/
theorem c9_substring_first_match (i : Nat) (fields : List (String × JValue))
    (a opt : String) (opts : List String)
    (ha : lookupField fields "answer" = some (.str a))
    (ho : lookupField fields "options" = some (.arr (opts.map JValue.str)))
    (hne : (pyStrip a).isEmpty = false)
    (hlen : opts.length = 4)
    (hml : pyLower (pyStrip a) ∉ opts.map pyLower)
    (hfr : findRepair (pyLower (pyStrip a)) opts = some opt) :
    validateOne i (.obj fields) = .ok (.obj (setField fields "answer" (.str opt))) := by
  rw [validateOne_eq i fields a opts ha ho hne hlen, if_neg hml, hfr]

/-- C9 witness: answer "chloro" is repaired to the first qualifying option
"Chlorophyll". -/
theorem c9_witness :
    validateOne 0 (.obj [("question", .str "Which pigment absorbs light?"),
        ("options", .arr photoOptions), ("answer", .str "chloro")]) =
      .ok (.obj (setField [("question", .str "Which pigment absorbs light?"),
        ("options", .arr photoOptions), ("answer", .str "chloro")]
        "answer" (.str "Chlorophyll"))) :=
  c9_substring_first_match 0 _ "chloro" "Chlorophyll"
    ["Chlorophyll", "Water", "Sunlight", "Carbon Dioxide"] rfl rfl rfl rfl
    (by decide) (by decide)

/-! ### Claim C10 -/

/-- Stripping a list that starts with an opening square bracket keeps that
bracket in front. -/
theorem pyStripList_lbrack (cs : List Char) :
    ∃ ds, pyStripList ('[' :: cs) = '[' :: ds := by
  unfold pyStripList
  rw [List.dropWhile_cons_of_neg (by decide)]
  have hr : ('[' :: cs).reverse.dropWhile isPyWs ≠ [] := by
    intro h0
    have hall := List.dropWhile_eq_nil_iff.mp h0 '[' (by simp)
    exact absurd hall (by decide)
  have hpre : (('[' :: cs).reverse.dropWhile isPyWs).reverse <+: ('[' :: cs) := by
    rw [←  List.reverse_suffix, List.reverse_reverse]
    exact List.dropWhile_suffix isPyWs
  obtain ⟨t, ht⟩ := hpre
  cases hrr : (('[' :: cs).reverse.dropWhile isPyWs).reverse with
  | nil =>
      exfalso
      apply hr
      have := congrArg List.reverse hrr
      simpa using this
  | cons c ds =>
      rw [hrr] at ht
      have hc : c = '[' := by
        have : c :: (ds ++ t) = '[' :: cs := by simpa using ht
        exact (List.cons.injEq _ _ _ _ ▸ this).1
      exact ⟨ds, by rw [hc]⟩

/-- Shape of a successful array extraction: the returned text is empty or
starts with an opening square bracket. -/
theorem extractArray_shape (text jt : String)
    (h : extractArrayBlock text = .ok jt) :
    jt.toList = [] ∨ ∃ cs, jt.toList = '[' :: cs := by
  unfold extractArrayBlock at h
  cases h1 : firstIdxOf '[' text.toList with
  | none => rw [h1] at h; exact absurd h (by simp)
  | some s =>
      cases h2 : lastIdxOf ']' text.toList with
      | none => rw [h1, h2] at h; exact absurd h (by simp)
      | some e2 =>
          rw [h1, h2] at h
          have hjt : jt = pyStrip (String.mk ((text.toList.drop s).take (e2 + 1 - s))) := by
            cases h
            rfl
          have hs := h1
          unfold firstIdxOf at hs
          rw [List.findIdx?_eq_some_iff_getElem] at hs
          obtain ⟨hlt, hps, _⟩ := hs
          have hgets : text.toList[s] = '[' := of_decide_eq_true hps
          cases hk : e2 + 1 - s with
          | zero =>
              left
              rw [hjt, hk]
              rfl
          | succ k =>
              right
              have hdrop : text.toList.drop s = '[' :: text.toList.drop (s + 1) := by
                rw [List.drop_eq_getElem_cons hlt, hgets]
              rw [hjt, hk, hdrop]
              rw [show ('[' :: text.toList.drop (s + 1)).take (k + 1) =
                    '[' :: (text.toList.drop (s + 1)).take k from rfl]
              obtain ⟨ds, hds⟩ := pyStripList_lbrack ((text.toList.drop (s + 1)).take k)
              exact ⟨ds, by rw [pyStrip_toList, toList_mk, hds]⟩

/-- C10: the suggestion generator is total at its interface — for every
topic, every backend behaviour, and every parser behaving like `json.loads`
on string results (a JSON string literal never begins with an opening
square bracket), the result is always a list of 3 or 4 elements and no
exception escapes (modelled by the function being total). -/
theorem c10_total_bounded (topic : String) (backend : Except String String)
    (parse : String → Except String JValue)
    (hp : ∀ s t, parse s = .ok (.str t) → ∃ c cs, s.toList = c :: cs ∧ c ≠ '[') :
    ∃ l, generate_study_suggestions topic backend parse = .arr l ∧
      3 ≤ l.length ∧ l.length ≤ 4 := by
  cases backend with
  | error e =>
      exact ⟨defaultSuggestions topic, gss_backend_error topic e parse,
        Nat.le_refl 3, Nat.le_succ 3⟩
  | ok raw =>
      unfold generate_study_suggestions gssAttempt
      rw [bindOkE]
      cases hext : extractArrayBlock (cleanFences (pyStrip raw)) with
      | error e2 =>
          exact ⟨defaultSuggestions topic, rfl, Nat.le_refl 3, Nat.le_succ 3⟩
      | ok jt =>
          rw [bindOkE]
          cases hpj : parse jt with
          | error pe =>
              exact ⟨defaultSuggestions topic, rfl, Nat.le_refl 3, Nat.le_succ 3⟩
          | ok v =>
              rw [bindOkE]
              cases v with
              | str t =>
                  exfalso
                  obtain ⟨c, cs, hshape, hc⟩ := hp jt t hpj
                  cases extractArray_shape _ jt hext with
                  | inl hnil => rw [hshape] at hnil; cases hnil
                  | inr hlb =>
                      obtain ⟨cs2, hcs2⟩ := hlb
                      rw [hshape] at hcs2
                      have hch : c = '[' := by
                        have h2 := congrArg (fun l => l.headD ' ') hcs2
                        simpa using h2
                      exact hc hch
              | arr l =>
                  rw [show pyLen (.arr l) = .ok l.length from rfl, bindOkE]
                  by_cases h3 : l.length < 3
                  · rw [if_pos h3]
                    rw [show pySliceTo (.arr l) 3 = .ok (.arr (l.take 3)) from rfl, bindOkE]
                    rw [show pyConcat (.arr (l.take 3))
                          (.arr (((fallbackSuggestions topic).drop l.length).take (3 - l.length))) =
                        .ok (.arr (l.take 3 ++
                          ((fallbackSuggestions topic).drop l.length).take (3 - l.length)))
                        from rfl, bindOkE]
                    have hfb : (fallbackSuggestions topic).length = 3 := rfl
                    refine ⟨_, rfl, ?_, ?_⟩ <;>
                      (simp only [List.length_take, List.length_append, List.length_drop, hfb]
                       omega)
                  · rw [if_neg h3]
                    refine ⟨l.take 4, rfl, ?_, ?_⟩ <;>
                      (simp only [List.length_take]
                       omega)
              | obj f =>
                  rw [show pyLen (.obj f) = .ok f.length from rfl, bindOkE]
                  by_cases h3 : f.length < 3
                  · rw [if_pos h3]
                    exact ⟨defaultSuggestions topic, rfl, Nat.le_refl 3, Nat.le_succ 3⟩
                  · rw [if_neg h3]
                    exact ⟨defaultSuggestions topic, rfl, Nat.le_refl 3, Nat.le_succ 3⟩
              | num n2 =>
                  exact ⟨defaultSuggestions topic, rfl, Nat.le_refl 3, Nat.le_succ 3⟩
              | bool b =>
                  exact ⟨defaultSuggestions topic, rfl, Nat.le_refl 3, Nat.le_succ 3⟩
              | null =>
                  exact ⟨defaultSuggestions topic, rfl, Nat.le_refl 3, Nat.le_succ 3⟩

/-- C10 witness: the totality theorem applied to an always-failing parser
and a failing backend. -/
theorem c10_witness :
    ∃ l, generate_study_suggestions "Photosynthesis" (.error "timeout")
        (fun _ => Except.error "Expecting value") = .arr l ∧
      3 ≤ l.length ∧ l.length ≤ 4 :=
  c10_total_bounded "Photosynthesis" (.error "timeout")
    (fun _ => Except.error "Expecting value") (by intro s t h; simp at h)

end Explainify
